import Mathlib

/-!
Verification of the fan-out probe-aggregation engine of the Pylib OSINT
repository (modules `email.py`, `trace.py`, `username.py`).

The three modules share one dispatcher shape: a `ThreadPoolExecutor` is given
one future per probe, and the module then iterates over the futures dict in
insertion (= submission) order, calling `future.result(timeout=...)` on each
and folding any returned payload dict into `self.results` via `dict.update`.
We embed payload dicts as ordered association lists with Python's
replace-in-place-or-append update semantics, and embed one completed run as
the list of per-future results in submission order, each tagged with a
completion time so that claims about completion-time ordering can be stated.
-/

/-- A JSON-like value, the shape of data stored in `self.results` and in the
payload dicts returned by the probe helper methods. -/
inductive JsonVal where
  | str : String → JsonVal
  | num : Rat → JsonVal
  | bool : Bool → JsonVal
  | arr : List JsonVal → JsonVal
  | obj : List (String × JsonVal) → JsonVal

/-- A Python dict of result fields, as an ordered association list. -/
abbrev Payload := List (String × JsonVal)

/-- Python `d[k] = v` on an (unique-key) ordered dict: if the key is present
its value is replaced in place, otherwise the pair is appended at the end. -/
def setKey : Payload → String → JsonVal → Payload
  | [], k, v => [(k, v)]
  | kv :: rest, k, v => if kv.1 = k then (k, v) :: rest else kv :: setKey rest k v

/-- Python `d.update(p)`: fold every binding of `p` into `d`, left to right. -/
def dictUpdate (m : Payload) (p : Payload) : Payload :=
  p.foldl (fun acc kv => setKey acc kv.1 kv.2) m

/-- Python `d.get(k)`: the value of the first binding of `k`. -/
def getKey : Payload → String → Option JsonVal
  | [], _ => none
  | kv :: rest, k => if kv.1 = k then some kv.2 else getKey rest k

/-- The value of the last binding of `k` in a payload list; this is the value
a `dict.update` with that payload leaves under `k`. -/
def lastVal : Payload → String → Option JsonVal
  | [], _ => none
  | kv :: rest, k =>
      match lastVal rest k with
      | some v => some v
      | none => if kv.1 = k then some kv.2 else none

/-- What `future.result(timeout=...)` produced for one submitted probe:
a returned value (a payload dict, or `None` as the username probes return on
a miss), an exception raised by the probe function, or a timeout of the
bounded wait itself. -/
inductive FutureRes where
  | value : Option Payload → FutureRes
  | error : FutureRes
  | timedOut : FutureRes

/-- One submitted probe of a finished run: its name, what `future.result`
yielded for it, and the (wall-clock) instant its work completed.  A run is a
`List CompletedProbe` in submission order; `doneAt` carries the completion
time, which the source code never consults. -/
structure CompletedProbe where
  name : String
  res : FutureRes
  doneAt : Nat

/-- The per-probe outcome classification of the spec's ledger. -/
inductive Outcome where
  | success : Payload → Outcome
  | failure : Outcome
  | timeout : Outcome

/-- Outcome classification of a future's result: a returned dict is Success,
a `None` return or a raised exception is Failure, a timed-out wait Timeout. -/
def outcomeOf : FutureRes → Outcome
  | .value (some p) => .success p
  | .value none => .failure
  | .error => .failure
  | .timedOut => .timeout

/-- The diagnostic ledger of a run: one Outcome per submitted probe. -/
def ledger (run : List CompletedProbe) : List (String × Outcome) :=
  run.map (fun c => (c.name, outcomeOf c.res))

/-- One iteration of the email/trace collection loop
(`result = future.result(timeout=...); self.results.update(result)`, with the
whole body in a `try` whose `except` only logs): a returned dict is merged,
every exceptional path leaves the accumulator unchanged. -/
def emailMergeStep (acc : Payload) (c : CompletedProbe) : Payload :=
  match c.res with
  | .value (some p) => dictUpdate acc p
  | _ => acc

/-- The email/trace collection loop over the futures in submission order. -/
def emailMergeRun (init : Payload) (run : List CompletedProbe) : Payload :=
  run.foldl emailMergeStep init

/-- One iteration of the username collection loop, which additionally guards
the merge with `if result:` — a `None` return and an empty dict are skipped. -/
def usernameMergeStep (acc : Payload) (c : CompletedProbe) : Payload :=
  match c.res with
  | .value (some p) => if p.isEmpty then acc else dictUpdate acc p
  | _ => acc

/-- The username collection loop over the futures in submission order. -/
def usernameMergeRun (init : Payload) (run : List CompletedProbe) : Payload :=
  run.foldl usernameMergeStep init

theorem getKey_setKey_same (m : Payload) (k : String) (v : JsonVal) :
    getKey (setKey m k v) k = some v := by
  induction m with
  | nil => simp [setKey, getKey]
  | cons kv rest ih =>
      by_cases h : kv.1 = k <;> simp [setKey, getKey, h, ih]

theorem getKey_setKey_other (m : Payload) (k k' : String) (v : JsonVal)
    (h : k' ≠ k) : getKey (setKey m k' v) k = getKey m k := by
  induction m with
  | nil => simp [setKey, getKey, h]
  | cons kv rest ih =>
      by_cases hk : kv.1 = k'
      · simp [setKey, getKey, hk, h, Ne.symm h]
      · by_cases hk2 : kv.1 = k <;>
          simp [setKey, getKey, hk, hk2, Ne.symm h, ih]

theorem lastVal_cons (kv : String × JsonVal) (rest : Payload) (k : String) :
    lastVal (kv :: rest) k =
      match lastVal rest k with
      | some v => some v
      | none => if kv.1 = k then some kv.2 else none := rfl

theorem getKey_dictUpdate_none (p : Payload) (k : String) :
    ∀ m : Payload, lastVal p k = none →
      getKey (dictUpdate m p) k = getKey m k := by
  induction p with
  | nil => intro m _; rfl
  | cons kv rest ih =>
      intro m h
      rw [lastVal_cons] at h
      rcases hrest : lastVal rest k with _ | w
      · rw [hrest] at h
        have hkv : kv.1 ≠ k := by
          by_cases hx : kv.1 = k
          · simp [hx] at h
          · exact hx
        show getKey (dictUpdate (setKey m kv.1 kv.2) rest) k = getKey m k
        rw [ih (setKey m kv.1 kv.2) hrest,
          getKey_setKey_other m k kv.1 kv.2 hkv]
      · rw [hrest] at h; simp at h

theorem getKey_dictUpdate_last (p : Payload) (k : String) (v : JsonVal) :
    ∀ m : Payload, lastVal p k = some v →
      getKey (dictUpdate m p) k = some v := by
  induction p with
  | nil => intro m h; simp [lastVal] at h
  | cons kv rest ih =>
      intro m h
      rw [lastVal_cons] at h
      show getKey (dictUpdate (setKey m kv.1 kv.2) rest) k = some v
      rcases hrest : lastVal rest k with _ | w
      · rw [hrest] at h
        have hkv : kv.1 = k := by
          by_cases hx : kv.1 = k
          · exact hx
          · simp [hx] at h
        have hv : kv.2 = v := by
          rw [if_pos hkv] at h
          exact Option.some.inj h
        rw [getKey_dictUpdate_none rest k _ hrest, hkv, hv,
          getKey_setKey_same]
      · rw [hrest] at h
        have hw : w = v := Option.some.inj h
        subst hw
        exact ih (setKey m kv.1 kv.2) hrest

/-- Character class `[a-zA-Z0-9._%+-]` of the local part of the email regex
in `EmailModule._validate_email`. -/
def isLocalChar (c : Char) : Bool :=
  c.isAlpha || c.isDigit || c = '.' || c = '_' || c = '%' || c = '+' || c = '-'

/-- Character class `[a-zA-Z0-9.-]` of the domain part of the email regex. -/
def isDomainChar (c : Char) : Bool :=
  c.isAlpha || c.isDigit || c = '.' || c = '-'

/-- Match of `[a-zA-Z0-9.-]+\.[a-zA-Z]\x7b2,\x7d` against a whole character
list.  The final literal-dot split is taken at the last dot of the string:
since the TLD group is all-alphabetic it can contain no dot, so the regex
matches exactly when the segment after the last dot is at least two
alphabetic characters and the nonempty remainder before it lies in the
domain character class. -/
def validDomain (dom : List Char) : Bool :=
  let revTld := dom.reverse.takeWhile (fun c => c.isAlpha)
  match dom.reverse.dropWhile (fun c => c.isAlpha) with
  | '.' :: dRev => decide (revTld.length ≥ 2) && !dRev.isEmpty
      && dRev.all isDomainChar
  | _ => false

/-- Match of the full email pattern against a character list.  The local
part is the maximal prefix of local-class characters (the class excludes
`@`, so the split at the first `@` is the only possible one). -/
def validEmailList (cs : List Char) : Bool :=
  match cs.dropWhile isLocalChar with
  | '@' :: dom => !(cs.takeWhile isLocalChar).isEmpty && validDomain dom
  | _ => false

namespace EmailModule

/-- `EmailModule._validate_email`: `re.match` of the anchored pattern
`[a-zA-Z0-9._%+-]+@[a-zA-Z0-9.-]+\.[a-zA-Z]\x7b2,\x7d$` against the string.
Python's `$` also matches just before one trailing newline, so a string
whose core matches after dropping a final newline is accepted as well. -/
def validate_email (s : String) : Bool :=
  validEmailList s.toList ||
    (match s.toList.getLast? with
     | some c => c = '\n' && validEmailList s.toList.dropLast
     | none => false)

/-- State of an `EmailModule` instance: the fields set in `__init__` that
 the claims concern (`target_email`, `output_folder`, `results`). -/
structure State where
  target_email : Option String
  output_folder : Option String
  results : Payload

/-- The state a freshly constructed `EmailModule` has after `__init__`. -/
def mkState : State := ⟨none, none, []⟩

/-- `EmailModule.find`: validates the email syntax; an invalid email is
 logged and the module returned unchanged, a valid one becomes the target. -/
def find (s : State) (email : String) : State :=
  if validate_email email then { s with target_email := some email } else s

end EmailModule

/-- Python truthiness of an optional string field (`if not self.target_...`):
`None` and the empty string are falsy. -/
def truthyStr : Option String → Bool
  | none => false
  | some s => !s.isEmpty

/-- Observable outcome of one `_save_results` call.  The source opens the
log file inside a `try` whose `except` only logs an error, so the attempt
count is zero (empty results) or one, never more. -/
structure SaveOutcome where
  resultsAfter : Payload
  attempts : Nat
  wrote : Bool
  warned : Bool
  errored : Bool

/-- `_save_results` (identical in all three modules up to the file name):
empty results short-circuit with a warning log and no write; otherwise a
single write is attempted, and a write failure is logged as an error and
not retried.  `writeOk` abstracts whether the filesystem write succeeds. -/
def save_results (results : Payload) (writeOk : Bool) : SaveOutcome :=
  if results.isEmpty then
    ⟨results, 0, false, true, false⟩
  else if writeOk then
    ⟨results, 1, true, false, false⟩
  else
    ⟨results, 1, false, false, true⟩

/-- Observable outcome of one `execute` call on a module with state `σ`. -/
structure ExecOutcome (σ : Type) where
  stateAfter : σ
  dispatched : Bool
  saveInvoked : Bool
  saveAttempts : Nat
  artifactWritten : Bool
  warnedEmpty : Bool
  persistErrorLogged : Bool
  raisedToCaller : Option String

/-- Observable outcome of one `notify` call. -/
structure NotifyOutcome (σ : Type) where
  raisedToCaller : Option String
  stateAfter : σ

namespace EmailModule

/-- `EmailModule.execute`: a falsy target logs an error and returns `self`
with nothing dispatched; otherwise the output folder defaults to
`./email_results`, the four futures are collected in submission order with
every per-future exception caught and logged, and `_save_results` runs.
`run` is the list of future results in submission order; `writeOk` abstracts
the artifact write.  No branch raises to the caller. -/
def execute (s : State) (run : List CompletedProbe) (writeOk : Bool) :
    ExecOutcome State :=
  if truthyStr s.target_email then
    let folder := s.output_folder.getD "./email_results"
    let merged := emailMergeRun s.results run
    let sv := save_results merged writeOk
    { stateAfter := { s with output_folder := some folder, results := merged },
      dispatched := true, saveInvoked := true, saveAttempts := sv.attempts,
      artifactWritten := sv.wrote, warnedEmpty := sv.warned,
      persistErrorLogged := sv.errored, raisedToCaller := none }
  else
    { stateAfter := s, dispatched := false, saveInvoked := false,
      saveAttempts := 0, artifactWritten := false, warnedEmpty := false,
      persistErrorLogged := false, raisedToCaller := none }

/-- `EmailModule.notify`: calls `notification.notify` with no surrounding
`try`/`except`, so a failure of the notification backend (`notifRes`)
propagates to the caller; the module state is never touched. -/
def notify (notifRes : Except String Unit) (s : State) :
    NotifyOutcome State :=
  match notifRes with
  | .ok _ => ⟨none, s⟩
  | .error e => ⟨some e, s⟩

/-- The artifact file name built in `EmailModule._save_results` from the
 formatted timestamp `datetime.now().strftime(...)`. -/
def log_file (ts : String) : String := "EmailLog_" ++ ts ++ ".json"

/-- `EmailModule._verify_email`: returns a fixed literal dict; the body
 cannot raise, so the `except` fallback is dead code. -/
def verify_email (email : String) : Payload :=
  [("verification", .obj [("valid", .bool true), ("deliverable", .bool true),
    ("risk_score", .num 0.15)])]

/-- `EmailModule._clearbit_enrichment`: returns a literal dict whose only
 input-dependent field echoes the email; the body cannot raise. -/
def clearbit_enrichment (email : String) : Payload :=
  [("enrichment", .obj [("person", .obj [("email", .str email),
    ("name", .str "Data Enriched")])])]

end EmailModule

namespace TraceModule

/-- State of a `TraceModule` instance. -/
structure State where
  target_ip : Option String
  output_folder : Option String
  results : Payload

/-- The state a freshly constructed `TraceModule` has after `__init__`. -/
def mkState : State := ⟨none, none, []⟩

/-- `TraceModule.target`: `_validate_ip` delegates to the standard-library
`ipaddress.ip_address` parser, abstracted here as the boolean `validIp`; a
rejected address is logged and the module returned unchanged. -/
def target (s : State) (ip : String) (validIp : Bool) : State :=
  if validIp then { s with target_ip := some ip } else s

/-- `TraceModule.execute`: same collection loop as the email module (five
 futures, default folder `./trace_results`). -/
def execute (s : State) (run : List CompletedProbe) (writeOk : Bool) :
    ExecOutcome State :=
  if truthyStr s.target_ip then
    let folder := s.output_folder.getD "./trace_results"
    let merged := emailMergeRun s.results run
    let sv := save_results merged writeOk
    { stateAfter := { s with output_folder := some folder, results := merged },
      dispatched := true, saveInvoked := true, saveAttempts := sv.attempts,
      artifactWritten := sv.wrote, warnedEmpty := sv.warned,
      persistErrorLogged := sv.errored, raisedToCaller := none }
  else
    { stateAfter := s, dispatched := false, saveInvoked := false,
      saveAttempts := 0, artifactWritten := false, warnedEmpty := false,
      persistErrorLogged := false, raisedToCaller := none }

/-- `TraceModule.notify`: like the email module, no exception handling. -/
def notify (notifRes : Except String Unit) (s : State) :
    NotifyOutcome State :=
  match notifRes with
  | .ok _ => ⟨none, s⟩
  | .error e => ⟨some e, s⟩

/-- The artifact file name built in `TraceModule._save_results`. -/
def log_file (ts : String) : String := "TraceLog_" ++ ts ++ ".json"

/-- `TraceModule._abuse_check`: returns a fixed literal dict; the body
 cannot raise. -/
def abuse_check (ip : String) : Payload :=
  [("abuse_report", .obj [("is_whitelisted", .bool false),
    ("abuseConfidenceScore", .num 0),
    ("usageType", .str "Content Delivery Network")])]

end TraceModule

namespace UsernameModule

/-- State of a `UsernameModule` instance. -/
structure State where
  target_username : Option String
  output_folder : Option String
  results : Payload

/-- The state a freshly constructed `UsernameModule` has after `__init__`. -/
def mkState : State := ⟨none, none, []⟩

/-- `UsernameModule.search`: stores the given username verbatim as the
 target; the method contains no validation of any kind. -/
def search (s : State) (username : String) : State :=
  { s with target_username := some username }

/-- `UsernameModule.execute`: same dispatcher shape, except that the
collection loop guards the merge with `if result:` so that `None` and empty
dict returns from `_check_platform` are skipped. -/
def execute (s : State) (run : List CompletedProbe) (writeOk : Bool) :
    ExecOutcome State :=
  if truthyStr s.target_username then
    let folder := s.output_folder.getD "./username_results"
    let merged := usernameMergeRun s.results run
    let sv := save_results merged writeOk
    { stateAfter := { s with output_folder := some folder, results := merged },
      dispatched := true, saveInvoked := true, saveAttempts := sv.attempts,
      artifactWritten := sv.wrote, warnedEmpty := sv.warned,
      persistErrorLogged := sv.errored, raisedToCaller := none }
  else
    { stateAfter := s, dispatched := false, saveInvoked := false,
      saveAttempts := 0, artifactWritten := false, warnedEmpty := false,
      persistErrorLogged := false, raisedToCaller := none }

/-- The artifact file name built in `UsernameModule._save_results`:
`Log` followed by the current directory-listing length plus one, with no
 target-kind marker and no timestamp. -/
def log_file (dirCount : Nat) : String :=
  "Log" ++ toString (dirCount + 1) ++ ".json"

end UsernameModule

/-- Whether `pat` occurs as a contiguous substring of `s`. -/
def strHasSub (s pat : String) : Bool :=
  (List.range (s.toList.length + 1)).any
    (fun i => pat.toList.isPrefixOf (s.toList.drop i))

/-- Whether a completed probe contributes a binding for field `k` when its
result is folded into the accumulator. -/
def probeWritesKey (c : CompletedProbe) (k : String) : Prop :=
  match c.res with
  | .value (some p) => lastVal p k ≠ none
  | _ => False

theorem getKey_emailMergeRun_frame (post : List CompletedProbe) (k : String) :
    ∀ acc : Payload, (∀ c ∈ post, ¬ probeWritesKey c k) →
      getKey (emailMergeRun acc post) k = getKey acc k := by
  induction post with
  | nil => intro acc _; rfl
  | cons c rest ih =>
      intro acc h
      have hstep : getKey (emailMergeStep acc c) k = getKey acc k := by
        rcases hres : c.res with p | _ | _
        · rcases p with _ | p
          · simp [emailMergeStep, hres]
          · have hc : ¬ probeWritesKey c k := h c (List.mem_cons_self c rest)
            rw [probeWritesKey, hres] at hc
            simp only [ne_eq, not_not] at hc
            simp only [emailMergeStep, hres]
            exact getKey_dictUpdate_none p k acc hc
        · simp [emailMergeStep, hres]
        · simp [emailMergeStep, hres]
      show getKey (emailMergeRun (emailMergeStep acc c) rest) k = getKey acc k
      rw [ih (emailMergeStep acc c) (fun d hd => h d (List.mem_cons_of_mem c hd)),
        hstep]

theorem emailMergeStep_non_success (acc : Payload) (c : CompletedProbe)
    (h : c.res = .value none ∨ c.res = .error ∨ c.res = .timedOut) :
    emailMergeStep acc c = acc := by
  rcases h with h | h | h <;> simp [emailMergeStep, h]

theorem usernameMergeStep_non_success (acc : Payload) (c : CompletedProbe)
    (h : c.res = .value none ∨ c.res = .error ∨ c.res = .timedOut) :
    usernameMergeStep acc c = acc := by
  rcases h with h | h | h <;> simp [usernameMergeStep, h]

theorem emailMergeRun_drop_non_success (init : Payload)
    (pre post : List CompletedProbe) (c : CompletedProbe)
    (h : c.res = .value none ∨ c.res = .error ∨ c.res = .timedOut) :
    emailMergeRun init (pre ++ c :: post) = emailMergeRun init (pre ++ post) := by
  unfold emailMergeRun
  rw [List.foldl_append, List.foldl_append, List.foldl_cons,
    emailMergeStep_non_success _ c h]

theorem usernameMergeRun_drop_non_success (init : Payload)
    (pre post : List CompletedProbe) (c : CompletedProbe)
    (h : c.res = .value none ∨ c.res = .error ∨ c.res = .timedOut) :
    usernameMergeRun init (pre ++ c :: post)
      = usernameMergeRun init (pre ++ post) := by
  unfold usernameMergeRun
  rw [List.foldl_append, List.foldl_append, List.foldl_cons,
    usernameMergeStep_non_success _ c h]

/-- C1 (counterexample): the collection loop merges in futures-iteration
(= submission) order, not in completion-time order.  In a run whose futures
dict holds B before A, with A completing at time 1 and B completing later at
time 5, the final result holds A's value for the shared field "x", not B's
— the claim predicts B's value 2, the code yields A's value 1. -/
theorem merge_order_follows_submission_not_completion :
    getKey (emailMergeRun []
      [⟨"B", .value (some [("x", JsonVal.num 2)]), 5⟩,
       ⟨"A", .value (some [("x", JsonVal.num 1)]), 1⟩]) "x"
        = some (JsonVal.num 1) ∧
    (1 : Nat) < 5 ∧
    JsonVal.num 1 ≠ JsonVal.num 2 := by
  refine ⟨rfl, by decide, ?_⟩
  intro h
  injection h with h2
  exact absurd h2 (by norm_num)

/-- C1 (amended): last-writer-wins holds by futures-iteration order, which
is submission order: if probe `b` succeeds with a payload whose last binding
of field `k` is `v`, and no success merged after `b` in iteration order
writes `k`, then the final result holds `v` for `k` — regardless of the
probes' completion times. -/
theorem merge_last_writer_wins_by_iteration_order
    (init : Payload) (pre post : List CompletedProbe) (b : CompletedProbe)
    (pb : Payload) (k : String) (v : JsonVal)
    (hb : b.res = .value (some pb)) (hv : lastVal pb k = some v)
    (hpost : ∀ c ∈ post, ¬ probeWritesKey c k) :
    getKey (emailMergeRun init (pre ++ b :: post)) k = some v := by
  unfold emailMergeRun
  rw [List.foldl_append, List.foldl_cons]
  show getKey (emailMergeRun (emailMergeStep (emailMergeRun init pre) b) post) k
    = some v
  rw [getKey_emailMergeRun_frame post k _ hpost]
  show getKey (emailMergeStep (emailMergeRun init pre) b) k = some v
  rw [emailMergeStep, hb]
  exact getKey_dictUpdate_last pb k v _ hv

/-- C1 (witness): with A submitted and iterated before B, both succeeding on
field "x", the final value is B's. -/
theorem merge_last_writer_wins_by_iteration_order_witness :
    lastVal [("x", JsonVal.num 2)] "x" = some (JsonVal.num 2) ∧
    getKey (emailMergeRun []
      [⟨"A", .value (some [("x", JsonVal.num 1)]), 1⟩,
       ⟨"B", .value (some [("x", JsonVal.num 2)]), 2⟩]) "x"
        = some (JsonVal.num 2) :=
  ⟨rfl, merge_last_writer_wins_by_iteration_order []
    [⟨"A", .value (some [("x", JsonVal.num 1)]), 1⟩] []
    ⟨"B", .value (some [("x", JsonVal.num 2)]), 2⟩
    [("x", JsonVal.num 2)] "x" (JsonVal.num 2) rfl rfl
    (by intro c hc; cases hc)⟩

/-- C2: a probe whose outcome is Failure (a raised exception, or the `None`
return of a missed platform check) or Timeout contributes nothing to the
merged result: the run merges to exactly what it would merge to with that
probe removed, in both the email/trace loop and the username loop. -/
theorem non_success_probe_absent_from_result
    (init : Payload) (pre post : List CompletedProbe) (c : CompletedProbe)
    (h : c.res = .value none ∨ c.res = .error ∨ c.res = .timedOut) :
    emailMergeRun init (pre ++ c :: post) = emailMergeRun init (pre ++ post) ∧
    usernameMergeRun init (pre ++ c :: post)
      = usernameMergeRun init (pre ++ post) :=
  ⟨emailMergeRun_drop_non_success init pre post c h,
   usernameMergeRun_drop_non_success init pre post c h⟩

/-- C2 (witness): a timed-out probe C contributes nothing next to a
successful probe A. -/
theorem non_success_probe_absent_from_result_witness :
    (⟨"C", .timedOut, 3⟩ : CompletedProbe).res = FutureRes.timedOut ∧
    emailMergeRun []
        [⟨"A", .value (some [("x", JsonVal.num 1)]), 1⟩, ⟨"C", .timedOut, 3⟩]
      = emailMergeRun [] [⟨"A", .value (some [("x", JsonVal.num 1)]), 1⟩] :=
  ⟨rfl, (non_success_probe_absent_from_result []
    [⟨"A", .value (some [("x", JsonVal.num 1)]), 1⟩] []
    ⟨"C", .timedOut, 3⟩ (Or.inr (Or.inr rfl))).1⟩

/-- C3 (counterexample): `execute` on a freshly constructed module with no
target raises nothing at all — it logs an error and returns `self` — so the
claimed ConfigurationError is never raised (the code also has no empty-probe
-set check: the probe sets are hardcoded).  No dispatch occurs and no
artifact is written, but by early return, not by an exception. -/
theorem no_configuration_error_raised_on_null_target :
    (EmailModule.execute EmailModule.mkState [] true).raisedToCaller = none ∧
    (EmailModule.execute EmailModule.mkState [] true).dispatched = false ∧
    (EmailModule.execute EmailModule.mkState [] true).artifactWritten = false ∧
    (TraceModule.execute TraceModule.mkState [] true).raisedToCaller = none ∧
    (TraceModule.execute TraceModule.mkState [] true).dispatched = false :=
  ⟨rfl, rfl, rfl, rfl, rfl⟩

/-- C3 (amended): a null/absent target makes `execute` abort before any
probe is dispatched, with no artifact written and the state unchanged — but
by logging an error and returning early, without raising any exception to
the caller. -/
theorem null_target_aborts_run_without_exception
    (s : EmailModule.State) (run : List CompletedProbe) (writeOk : Bool)
    (t : TraceModule.State) (run' : List CompletedProbe) (writeOk' : Bool)
    (hs : s.target_email = none) (ht : t.target_ip = none) :
    (EmailModule.execute s run writeOk).dispatched = false ∧
    (EmailModule.execute s run writeOk).saveInvoked = false ∧
    (EmailModule.execute s run writeOk).artifactWritten = false ∧
    (EmailModule.execute s run writeOk).raisedToCaller = none ∧
    (EmailModule.execute s run writeOk).stateAfter = s ∧
    (TraceModule.execute t run' writeOk').dispatched = false ∧
    (TraceModule.execute t run' writeOk').artifactWritten = false ∧
    (TraceModule.execute t run' writeOk').raisedToCaller = none ∧
    (TraceModule.execute t run' writeOk').stateAfter = t := by
  simp [EmailModule.execute, TraceModule.execute, hs, ht, truthyStr]

/-- C3 (witness): the amended statement at the freshly constructed states. -/
theorem null_target_aborts_run_without_exception_witness :
    EmailModule.mkState.target_email = none ∧
    (EmailModule.execute EmailModule.mkState [] true).dispatched = false ∧
    (TraceModule.execute TraceModule.mkState [] true).stateAfter
      = TraceModule.mkState :=
  ⟨rfl,
   (null_target_aborts_run_without_exception EmailModule.mkState [] true
     TraceModule.mkState [] true rfl rfl).1,
   (null_target_aborts_run_without_exception EmailModule.mkState [] true
     TraceModule.mkState [] true rfl rfl).2.2.2.2.2.2.2.2⟩

/-- C4: a probe that raises is fully absorbed: `execute` still raises
nothing to the caller, still marks the run dispatched and still invokes
persistence; the raising probe contributes nothing (siblings merge exactly
as if it were absent); and the ledger records exactly one outcome per
submitted probe, the raising probe's being Failure — it is never retried. -/
theorem probe_exception_absorbed_and_isolated
    (s : EmailModule.State) (writeOk : Bool)
    (pre post : List CompletedProbe) (c : CompletedProbe)
    (ht : truthyStr s.target_email = true) (hc : c.res = .error) :
    (EmailModule.execute s (pre ++ c :: post) writeOk).raisedToCaller = none ∧
    (EmailModule.execute s (pre ++ c :: post) writeOk).dispatched = true ∧
    (EmailModule.execute s (pre ++ c :: post) writeOk).saveInvoked = true ∧
    (EmailModule.execute s (pre ++ c :: post) writeOk).stateAfter.results
      = emailMergeRun s.results (pre ++ post) ∧
    ledger (pre ++ c :: post)
      = ledger pre ++ (c.name, Outcome.failure) :: ledger post := by
  refine ⟨?_, ?_, ?_, ?_, ?_⟩
  · simp [EmailModule.execute, ht]
  · simp [EmailModule.execute, ht]
  · simp [EmailModule.execute, ht]
  · simp only [EmailModule.execute, ht, if_pos]
    exact emailMergeRun_drop_non_success s.results pre post c
      (Or.inr (Or.inl hc))
  · simp [ledger, outcomeOf, hc]

/-- C4 (witness): a raising breach check next to a successful reputation
check is absorbed and isolated. -/
theorem probe_exception_absorbed_and_isolated_witness :
    truthyStr (some "a@b.co") = true ∧
    (⟨"breaches", .error, 2⟩ : CompletedProbe).res = FutureRes.error ∧
    (EmailModule.execute ⟨some "a@b.co", none, []⟩
      ([⟨"reputation", .value (some [("reputation", JsonVal.obj [])]), 1⟩]
        ++ ⟨"breaches", .error, 2⟩ :: []) true).raisedToCaller = none :=
  ⟨rfl, rfl,
   (probe_exception_absorbed_and_isolated ⟨some "a@b.co", none, []⟩ true
     [⟨"reputation", .value (some [("reputation", JsonVal.obj [])]), 1⟩] []
     ⟨"breaches", .error, 2⟩ rfl rfl).1⟩

/-- C5 (counterexample): the username module performs no syntax validation
at all: `search` stores any string verbatim — here a bare space, which no
address-syntax check accepts — and `execute` then dispatches the probes for
it rather than short-circuiting. -/
theorem username_target_not_validated :
    (UsernameModule.search UsernameModule.mkState " ").target_username
      = some " " ∧
    (UsernameModule.execute (UsernameModule.search UsernameModule.mkState " ")
      [] true).dispatched = true :=
  ⟨rfl, rfl⟩

/-- C5 (amended): for the email and IP target kinds, syntax validation runs
before dispatch and a rejected target short-circuits the run — the target is
never stored, `execute` dispatches nothing and the result stays empty; the
username kind has no validation step (see the counterexample). -/
theorem rejected_target_short_circuits_run
    (em : String) (run : List CompletedProbe) (writeOk : Bool)
    (ip : String) (run' : List CompletedProbe) (writeOk' : Bool)
    (hem : EmailModule.validate_email em = false) :
    EmailModule.find EmailModule.mkState em = EmailModule.mkState ∧
    (EmailModule.execute (EmailModule.find EmailModule.mkState em) run
      writeOk).dispatched = false ∧
    (EmailModule.execute (EmailModule.find EmailModule.mkState em) run
      writeOk).stateAfter.results = [] ∧
    TraceModule.target TraceModule.mkState ip false = TraceModule.mkState ∧
    (TraceModule.execute (TraceModule.target TraceModule.mkState ip false)
      run' writeOk').dispatched = false ∧
    (TraceModule.execute (TraceModule.target TraceModule.mkState ip false)
      run' writeOk').stateAfter.results = [] := by
  have hfind : EmailModule.find EmailModule.mkState em = EmailModule.mkState := by
    simp [EmailModule.find, hem]
  have htgt : TraceModule.target TraceModule.mkState ip false
      = TraceModule.mkState := by
    simp [TraceModule.target]
  refine ⟨hfind, ?_, ?_, htgt, ?_, ?_⟩
  · rw [hfind]; simp [EmailModule.execute, EmailModule.mkState, truthyStr]
  · rw [hfind]; simp [EmailModule.execute, EmailModule.mkState, truthyStr]
  · rw [htgt]; simp [TraceModule.execute, TraceModule.mkState, truthyStr]
  · rw [htgt]; simp [TraceModule.execute, TraceModule.mkState, truthyStr]

/-- C5 (witness): the amended statement for the rejected email
"not-an-email" (no `@`) and a rejected IP. -/
theorem rejected_target_short_circuits_run_witness :
    EmailModule.validate_email "not-an-email" = false ∧
    (EmailModule.execute
      (EmailModule.find EmailModule.mkState "not-an-email") [] true).dispatched
      = false :=
  ⟨rfl, (rejected_target_short_circuits_run "not-an-email" [] true
    "999.999.999.999" [] true rfl).2.1⟩

/-- C6 (counterexample): `notify` wraps the call to the notification backend
in no `try`/`except`, so a failure raised inside the notification step
propagates to `notify`'s caller — contradicting the claim that it never
does. -/
theorem notify_failure_propagates :
    (EmailModule.notify (Except.error "notification backend failure")
      ⟨some "a@b.co", some "./results", [("x", JsonVal.num 1)]⟩).raisedToCaller
      = some "notification backend failure" := rfl

/-- C6 (amended): a failure of the notification backend propagates out of
`notify` uncaught, in both the email and trace modules; it does however
leave the module state — including the results computed and persisted by the
already-returned `execute` — completely unchanged. -/
theorem notify_failure_leaves_state_intact
    (r : Except String Unit) (s : EmailModule.State)
    (t : TraceModule.State) (e : String) (hr : r = .error e) :
    (EmailModule.notify r s).stateAfter = s ∧
    (EmailModule.notify r s).raisedToCaller = some e ∧
    (TraceModule.notify r t).stateAfter = t ∧
    (TraceModule.notify r t).raisedToCaller = some e := by
  subst hr
  exact ⟨rfl, rfl, rfl, rfl⟩

/-- C6 (witness): the amended statement at a concrete failing backend. -/
theorem notify_failure_leaves_state_intact_witness :
    (Except.error "no notification service" : Except String Unit)
      = Except.error "no notification service" ∧
    (EmailModule.notify (Except.error "no notification service")
      EmailModule.mkState).stateAfter = EmailModule.mkState :=
  ⟨rfl, (notify_failure_leaves_state_intact
    (Except.error "no notification service") EmailModule.mkState
    TraceModule.mkState "no notification service" rfl).1⟩

/-- C7: when the merged run result is empty, `execute` still invokes the
persistence step, which is a warning-logged no-op — nothing is opened or
written and no error is logged — and the run still completes normally:
nothing is raised to the caller. -/
theorem empty_result_persist_is_warned_noop
    (s : EmailModule.State) (run : List CompletedProbe) (writeOk : Bool)
    (ht : truthyStr s.target_email = true)
    (hm : emailMergeRun s.results run = []) :
    (EmailModule.execute s run writeOk).saveInvoked = true ∧
    (EmailModule.execute s run writeOk).saveAttempts = 0 ∧
    (EmailModule.execute s run writeOk).warnedEmpty = true ∧
    (EmailModule.execute s run writeOk).artifactWritten = false ∧
    (EmailModule.execute s run writeOk).persistErrorLogged = false ∧
    (EmailModule.execute s run writeOk).raisedToCaller = none ∧
    (EmailModule.execute s run writeOk).dispatched = true := by
  simp [EmailModule.execute, ht, hm, save_results]

/-- C7 (witness): a run whose only probe raised merges to the empty result
and is persisted as a warned no-op. -/
theorem empty_result_persist_is_warned_noop_witness :
    truthyStr (some "a@b.co") = true ∧
    emailMergeRun [] [⟨"breaches", .error, 1⟩] = [] ∧
    (EmailModule.execute ⟨some "a@b.co", none, []⟩ [⟨"breaches", .error, 1⟩]
      true).warnedEmpty = true :=
  ⟨rfl, rfl,
   (empty_result_persist_is_warned_noop ⟨some "a@b.co", none, []⟩
     [⟨"breaches", .error, 1⟩] true rfl rfl).2.2.1⟩

/-- C8: a failed artifact write is logged as an error, attempted exactly
once (never retried), raises nothing to the caller, and leaves the
in-memory merged results untouched — the state after `execute` still holds
the full aggregate, and `_save_results` preserves any results value. -/
theorem persist_failure_keeps_results
    (s : EmailModule.State) (run : List CompletedProbe) (p : Payload)
    (ht : truthyStr s.target_email = true)
    (hne : emailMergeRun s.results run ≠ []) :
    (EmailModule.execute s run false).persistErrorLogged = true ∧
    (EmailModule.execute s run false).artifactWritten = false ∧
    (EmailModule.execute s run false).saveAttempts = 1 ∧
    (EmailModule.execute s run false).raisedToCaller = none ∧
    (EmailModule.execute s run false).stateAfter.results
      = emailMergeRun s.results run ∧
    (save_results p false).resultsAfter = p := by
  have hempty : (emailMergeRun s.results run).isEmpty = false := by
    cases h : emailMergeRun s.results run with
    | nil => exact absurd h hne
    | cons a l => rfl
  refine ⟨?_, ?_, ?_, ?_, ?_, ?_⟩
  · simp [EmailModule.execute, ht, save_results, hempty]
  · simp [EmailModule.execute, ht, save_results, hempty]
  · simp [EmailModule.execute, ht, save_results, hempty]
  · simp [EmailModule.execute, ht]
  · simp [EmailModule.execute, ht]
  · unfold save_results
    by_cases hp : p.isEmpty <;> simp [hp]

/-- C8 (witness): a failed write after a successful breach probe reports the
error and keeps the aggregate inspectable. -/
theorem persist_failure_keeps_results_witness :
    truthyStr (some "a@b.co") = true ∧
    emailMergeRun [] [⟨"breaches", .value (some [("breaches", JsonVal.arr [])]), 1⟩]
      ≠ [] ∧
    (EmailModule.execute ⟨some "a@b.co", none, []⟩
      [⟨"breaches", .value (some [("breaches", JsonVal.arr [])]), 1⟩]
      false).stateAfter.results
      = emailMergeRun [] [⟨"breaches", .value (some [("breaches", JsonVal.arr [])]), 1⟩] :=
  ⟨rfl, by simp [emailMergeRun, emailMergeStep, dictUpdate, setKey],
   (persist_failure_keeps_results ⟨some "a@b.co", none, []⟩
     [⟨"breaches", .value (some [("breaches", JsonVal.arr [])]), 1⟩] []
     rfl (by simp [emailMergeRun, emailMergeStep, dictUpdate, setKey])).2.2.2.2.1⟩

theorem str_append_assoc (a b c : String) : (a ++ b) ++ c = a ++ (b ++ c) := by
  cases a with | mk da =>
  cases b with | mk db =>
  cases c with | mk dc =>
  show String.mk ((da ++ db) ++ dc) = String.mk (da ++ (db ++ dc))
  rw [List.append_assoc]

theorem str_append_middle_inj (a c b b' : String)
    (h : a ++ b ++ c = a ++ b' ++ c) : b = b' := by
  cases a with | mk da =>
  cases c with | mk dc =>
  cases b with | mk db =>
  cases b' with | mk db' =>
  have hd : (da ++ db) ++ dc = (da ++ db') ++ dc := congrArg String.data h
  have h1 : da ++ db = da ++ db' := List.append_cancel_right hd
  have h2 : db = db' := List.append_cancel_left h1
  rw [h2]

/-- C9 (counterexample): the username module's artifact filename is just
`Log` followed by the directory-listing count plus one — it embeds no
target-kind marker at all (unlike the email name, which does), so the claim
that every persisted artifact's filename embeds the target kind is false. -/
theorem username_artifact_name_lacks_target_kind :
    UsernameModule.log_file 0 = "Log1.json" ∧
    strHasSub "Log1.json" "Username" = false ∧
    strHasSub "Log1.json" "username" = false ∧
    strHasSub (EmailModule.log_file "20250101_120000") "Email" = true := by
  refine ⟨rfl, by decide, by decide, by decide⟩

/-- C9 (amended): the email and trace artifact filenames embed their target
kind as a prefix and a second-resolution timestamp, and runs with distinct
timestamp strings get distinct filenames; the username filename embeds only
a directory-listing sequence count and no kind marker, and any two runs
observing the same timestamp second (email/trace) or listing count
(username) produce the same name and overwrite each other. -/
theorem email_trace_artifact_names_embed_kind_and_timestamp
    (ts ts' : String) (h : ts ≠ ts') :
    (∃ r, EmailModule.log_file ts = "Email" ++ r) ∧
    (∃ r, TraceModule.log_file ts = "Trace" ++ r) ∧
    EmailModule.log_file ts ≠ EmailModule.log_file ts' ∧
    TraceModule.log_file ts ≠ TraceModule.log_file ts' := by
  refine ⟨⟨"Log_" ++ ts ++ ".json", ?_⟩, ⟨"Log_" ++ ts ++ ".json", ?_⟩, ?_, ?_⟩
  · show "EmailLog_" ++ ts ++ ".json" = "Email" ++ ("Log_" ++ ts ++ ".json")
    rw [← str_append_assoc, ← str_append_assoc]
    rfl
  · show "TraceLog_" ++ ts ++ ".json" = "Trace" ++ ("Log_" ++ ts ++ ".json")
    rw [← str_append_assoc, ← str_append_assoc]
    rfl
  · intro heq
    exact h (str_append_middle_inj "EmailLog_" ".json" ts ts' heq)
  · intro heq
    exact h (str_append_middle_inj "TraceLog_" ".json" ts ts' heq)

/-- C9 (witness): the amended statement at two distinct timestamps. -/
theorem email_trace_artifact_names_embed_kind_and_timestamp_witness :
    ("20250101_120000" : String) ≠ "20250101_120001" ∧
    EmailModule.log_file "20250101_120000"
      ≠ EmailModule.log_file "20250101_120001" :=
  ⟨by decide,
   (email_trace_artifact_names_embed_kind_and_timestamp "20250101_120000"
     "20250101_120001" (by decide)).2.2.1⟩

/-- C10: the three simulated probes are constant pure functions of their
input: `_verify_email` and `_abuse_check` return fixed literal dicts for
every input, and `_clearbit_enrichment` returns a fixed dict whose only
input-dependent field echoes the email under the name "Data Enriched"; none
of the three can fail. -/
theorem simulated_probes_are_constant (email ip : String) :
    EmailModule.verify_email email
      = [("verification", JsonVal.obj [("valid", JsonVal.bool true),
          ("deliverable", JsonVal.bool true),
          ("risk_score", JsonVal.num 0.15)])] ∧
    EmailModule.clearbit_enrichment email
      = [("enrichment", JsonVal.obj [("person", JsonVal.obj
          [("email", JsonVal.str email),
           ("name", JsonVal.str "Data Enriched")])])] ∧
    TraceModule.abuse_check ip
      = [("abuse_report", JsonVal.obj [("is_whitelisted", JsonVal.bool false),
          ("abuseConfidenceScore", JsonVal.num 0),
          ("usageType", JsonVal.str "Content Delivery Network")])] :=
  ⟨rfl, rfl, rfl⟩
